import Mathlib

/-! stunnel 4.08 daemon supervisor (`src/stunnel.c`): shallow embedding

The Unix build of `stunnel.c` is embedded (the `USE_WIN32` branches are left
out).  Preprocessor switches that come from `config.h` and constants that come
from system headers are fields of `Build`.  Answers of the host (system calls,
the user database) are explicit arguments.  Calls with an outside effect are
recorded, in program order, in a list of `Event`s.
-/

namespace Stunnel

/-! ## C `int` arithmetic -/

/-- Conversion of a mathematical integer to a 32-bit two's complement C `int`
(reduction modulo `2^32` into `[-2^31, 2^31)`). -/
def toInt32 (x : Int) : Int := (x + 2147483648) % 4294967296 - 2147483648

/-- C `int` multiplication, overflow wrapping modulo `2^32`. -/
def mulInt32 (a b : Int) : Int := toInt32 (a * b)

/-- C `int` subtraction, overflow wrapping modulo `2^32`. -/
def subInt32 (a b : Int) : Int := toInt32 (a - b)

/-- C `int` division: the quotient is truncated toward zero. -/
def divInt32 (a b : Int) : Int := toInt32 (Int.tdiv a b)

/-! ## Build configuration -/

/-- The probe `get_limits` is compiled with: `HAVE_SYSCONF`, else
`HAVE_GETRLIMIT`, else none of the two. -/
inductive Probe
  | sysconf
  | getrlimit
  | absent
  deriving DecidableEq, Repr

/-- Preprocessor switches and system-header constants used by `stunnel.c`. -/
structure Build where
  /-- selected by `HAVE_SYSCONF` / `HAVE_GETRLIMIT` -/
  probe : Probe
  /-- `HAVE_POLL` -/
  HAVE_POLL : Bool
  /-- `FD_SETSIZE` of the system headers -/
  FD_SETSIZE : Int
  /-- width in bits of the unsigned type `rlim_t` -/
  rlim_bits : Nat
  /-- `RLIM_INFINITY`, a value of type `rlim_t` -/
  RLIM_INFINITY : Int
  /-- `HAVE_CHROOT` -/
  HAVE_CHROOT : Bool
  /-- `HAVE_SETGROUPS` -/
  HAVE_SETGROUPS : Bool
  /-- whether the system headers define `FD_CLOEXEC` -/
  FD_CLOEXEC : Bool
  deriving Repr

/-- What the host answers to the probe of `get_limits`. -/
structure HostLimits where
  /-- value of `sysconf(_SC_OPEN_MAX)` (a `long`; `-1` on failure) -/
  sysconf_result : Int
  /-- return value of `getrlimit(RLIMIT_NOFILE, &rlim)` -/
  getrlimit_rc : Int
  /-- `rlim.rlim_cur` as filled in by a successful `getrlimit` -/
  rlim_cur : Int
  deriving Repr

/-- The globals `max_fds` and `max_clients`. -/
structure Limits where
  max_fds : Int
  max_clients : Int
  deriving DecidableEq, Repr

/-! ## `get_limits` -/

/-- Lines 248-262 of `get_limits`: `max_fds` after the probe. -/
def probe_max_fds (b : Build) (h : HostLimits) : Int :=
  match b.probe with
  | Probe.sysconf =>
      -- max_fds=sysconf(_SC_OPEN_MAX); a negative value is only logged
      toInt32 h.sysconf_result
  | Probe.getrlimit =>
      -- if(getrlimit(...)<0) ioerror(...); else max_fds=rlim.rlim_cur;
      let max_fds := if h.getrlimit_rc < 0 then 0 else toInt32 h.rlim_cur
      -- if(max_fds==RLIM_INFINITY) max_fds=0;   (compared in rlim_t)
      if max_fds % 2 ^ b.rlim_bits = b.RLIM_INFINITY then 0 else max_fds
  | Probe.absent => 0

/-- Lines 265-273 of `get_limits`: the `FD_SETSIZE` clamp of builds without
`poll()`. -/
def clamp_fd_setsize (b : Build) (max_fds : Int) : Int :=
  if b.HAVE_POLL then max_fds
  else if max_fds = 0 ∨ max_fds > b.FD_SETSIZE then b.FD_SETSIZE else max_fds

/-- Lines 274-275 of `get_limits`: `if(max_fds && max_fds<16) max_fds=16;`. -/
def clamp_min16 (max_fds : Int) : Int :=
  if max_fds ≠ 0 ∧ max_fds < 16 then 16 else max_fds

/-- Lines 276-282 of `get_limits`: `max_clients` from the final `max_fds`,
in C `int` arithmetic. -/
def derive_max_clients (max_fds : Int) : Int :=
  if max_fds ≠ 0 then
    if max_fds ≥ 256 then divInt32 (mulInt32 max_fds 125) 256
    else divInt32 (subInt32 max_fds 6) 2
  else 0

/-- The function `get_limits` (Unix branch): the globals it leaves behind. -/
def get_limits (b : Build) (h : HostLimits) : Limits :=
  let max_fds := clamp_min16 (clamp_fd_setsize b (probe_max_fds b h))
  { max_fds := max_fds, max_clients := derive_max_clients max_fds }

/-- The derivation of `max_clients` as the specification words it, over the
mathematical integers: `max_fds*125/256` from 256 on, `(max_fds-6)/2` below,
and 0 (no limit) for `max_fds = 0`. -/
def max_clients_spec (max_fds : Int) : Int :=
  if max_fds = 0 then 0
  else if max_fds ≥ 256 then max_fds * 125 / 256 else (max_fds - 6) / 2

/-- A Linux build that uses `sysconf` and `poll()`. -/
def linuxBuild : Build :=
  { probe := Probe.sysconf, HAVE_POLL := true, FD_SETSIZE := 1024,
    rlim_bits := 64, RLIM_INFINITY := 18446744073709551615,
    HAVE_CHROOT := true, HAVE_SETGROUPS := true,
    FD_CLOEXEC := true }

/-- A host whose descriptor limit is `n` (both probes agree). -/
def hostWithLimit (n : Int) : HostLimits :=
  { sysconf_result := n, getrlimit_rc := 0, rlim_cur := n }

/-! ## Events and globals -/

/-- Severities passed to `s_log`. -/
inductive Level
  | LOG_ERR
  | LOG_WARNING
  | LOG_NOTICE
  | LOG_INFO
  | LOG_DEBUG
  deriving DecidableEq, Repr

/-- Error numbers `accept_connection` tells apart after a failed `accept`;
`other` stands for every remaining value of `errno`. -/
inductive Errno
  | EINTR
  | EMFILE
  | ENFILE
  | ENOBUFS
  | ENOMEM
  | other (code : Nat)
  deriving DecidableEq, Repr

/-- What one call of `accept` gives: a descriptor (`s >= 0`) or a failure
(`s < 0`) with the error number left behind. -/
inductive AcceptResult
  | fd (s : Nat)
  | error (e : Errno)
  deriving DecidableEq, Repr

/-- Calls with an effect outside the program, as `stunnel.c` issues them. -/
inductive Event
  | s_log (level : Level) (format : String)
  | sockerror (txt : String)
  | ioerror (txt : String)
  | accept (listener : Int)
  | sleep (seconds : Nat)
  | closesocket (s : Int)
  | setnonblock (s : Int) (l : Nat)
  | fcntl_cloexec (s : Int)
  | create_client (ls : Int) (s : Int)
  | chroot (dir : String)
  | chdir (dir : String)
  | setgid (gid : Int)
  | setgroups (list : List Int)
  | setuid (uid : Int)
  | getpid
  | unlink (path : String)
  | open_excl (path : String)
  | write (fd : Int) (text : String)
  | close (fd : Int)
  | atexit_delete_pid
  | exit (code : Nat)
  deriving DecidableEq, Repr

/-- The globals `accept_connection` and `alloc_fd` read and write.  The counter
`num_clients` is kept as a mathematical integer: every counted session holds a
thread or a process, so the counter stays far below `2^31`. -/
structure Globals where
  max_fds : Int
  max_clients : Int
  num_clients : Int
  deriving DecidableEq, Repr

/-! ## `alloc_fd` and `accept_connection` -/

/-- The function `alloc_fd`: its return value and the calls it makes. -/
def alloc_fd (g : Globals) (sock : Int) : Int × List Event :=
  if g.max_fds = 0 ∨ sock ≥ g.max_fds then
    (-1, [Event.s_log Level.LOG_ERR "File descriptor out of range (%d>=%d)",
          Event.closesocket sock])
  else
    (0, [Event.setnonblock sock 1])

/-- Lines 219-240 of `accept_connection`: what happens once `accept` has
returned the descriptor `s`.  `rc` is the value `create_client` returns if it
is called. -/
def accept_connection_accepted (b : Build) (g : Globals) (listener : Int)
    (rc : Int) (s : Int) : Globals × List Event :=
  let t0 := [Event.s_log Level.LOG_DEBUG "%s accepted FD=%d from %s"]
  if g.max_clients ≠ 0 ∧ g.num_clients ≥ g.max_clients then
    (g, t0 ++ [Event.s_log Level.LOG_WARNING
                 "Connection rejected: too many clients (>=%d)",
               Event.closesocket s])
  else
    let a := alloc_fd g s
    if a.1 ≠ 0 then (g, t0 ++ a.2)
    else
      let t1 := t0 ++ a.2 ++ (if b.FD_CLOEXEC then [Event.fcntl_cloexec s] else [])
      if rc ≠ 0 then
        (g, t1 ++ [Event.create_client listener s,
                   Event.s_log Level.LOG_ERR
                     "Connection rejected: create_client failed",
                   Event.closesocket s])
      else
        ({ g with num_clients := g.num_clients + 1 },
         t1 ++ [Event.create_client listener s])

/-- The function `accept_connection`.  The list holds the results of the
successive `accept` calls on the listening socket; `none` means that every
result was used up while the call was still retrying (it has not returned). -/
def accept_connection (b : Build) (g : Globals) (listener : Int) (rc : Int) :
    List AcceptResult → Option (Globals × List Event)
  | [] => none
  | AcceptResult.fd s :: _ =>
      let r := accept_connection_accepted b g listener rc s
      some (r.1, Event.accept listener :: r.2)
  | AcceptResult.error Errno.EINTR :: rest =>
      (accept_connection b g listener rc rest).map
        (fun r => (r.1, Event.accept listener :: r.2))
  | AcceptResult.error e :: _ =>
      if e = Errno.EMFILE ∨ e = Errno.ENFILE ∨ e = Errno.ENOBUFS ∨ e = Errno.ENOMEM then
        some (g, [Event.accept listener, Event.sleep 1, Event.sockerror "accept"])
      else
        some (g, [Event.accept listener, Event.sockerror "accept"])

/-- Whether a trace holds a call of `create_client`. -/
def calls_create_client (tr : List Event) : Bool :=
  tr.any fun e => match e with
    | Event.create_client _ _ => true
    | _ => false

/-- Whether a trace holds a call of `exit`. -/
def calls_exit (tr : List Event) : Bool :=
  tr.any fun e => match e with
    | Event.exit _ => true
    | _ => false

/-- A worker has taken over the connection: `create_client` was called and
returned 0. -/
def worker_started (rc : Int) (tr : List Event) : Bool :=
  decide (rc = 0) && calls_create_client tr

/-- The accept results `EINTR` (k times). -/
def eintr (k : Nat) : List AcceptResult :=
  List.replicate k (AcceptResult.error Errno.EINTR)

/-- The error numbers after which `accept_connection` sleeps. -/
def out_of_resources (e : Errno) : Bool :=
  decide (e = Errno.EMFILE ∨ e = Errno.ENFILE ∨ e = Errno.ENOBUFS ∨ e = Errno.ENOMEM)

/-! ## The client counter over a run of the daemon -/

/-- One entry of the service list `local_options`. -/
structure Service where
  /-- the flag `option.accept`: the service binds and accepts -/
  accept : Bool
  /-- the listening descriptor `fd` -/
  fd : Int
  deriving DecidableEq, Repr

/-- Number of connect-only services of a configuration. -/
def connect_only (services : List Service) : Nat :=
  (services.filter fun opt => !opt.accept).length

/-- Lines 176-184 of `daemon_loop`: every service that does not accept gets
`num_clients++` and a `create_client(-1, -1, ...)`, whose result is ignored. -/
def spawn_connect_only (g : Globals) : List Service → Globals × List Event
  | [] => (g, [])
  | opt :: rest =>
      if opt.accept then spawn_connect_only g rest
      else
        let r := spawn_connect_only { g with num_clients := g.num_clients + 1 } rest
        (r.1, Event.create_client (-1) (-1) :: r.2)

/-- Globals of `daemon_loop` when it enters its `while(1)` loop: the limits of
`get_limits` (line 125), `num_clients=0` (line 136), then the sessions of the
connect-only services (lines 176-184). -/
def daemon_start (b : Build) (h : HostLimits) (services : List Service) : Globals :=
  let lim := get_limits b h
  (spawn_connect_only
    { max_fds := lim.max_fds, max_clients := lim.max_clients, num_clients := 0 }
    services).1

/-- Modelled from the spec: the end of a session, which is in `client.c` and not
part of the embedded sources.  "Destroyed when the worker returns, which MUST
cause `num_clients` to decrement exactly once." -/
def session_completed (g : Globals) : Globals :=
  { g with num_clients := g.num_clients - 1 }

/-- Globals of `daemon_loop` before its start-up loops: the limits of
`get_limits` (line 125) and `num_clients=0` (line 136). -/
def daemon_init (b : Build) (h : HostLimits) : Globals :=
  { max_fds := (get_limits b h).max_fds, max_clients := (get_limits b h).max_clients,
    num_clients := 0 }

/-- The globals together with what is under way: `live` counts the sessions
that were started and have not completed yet; `pending` tells that
`accept_connection` stands between a `create_client` that returned 0
(line 233) and its `num_clients++` (lines 238-240); `todo` holds the services
the loop of lines 177-184 has still to visit. -/
structure Sys where
  g : Globals
  live : Nat
  pending : Bool
  todo : List Service
  deriving DecidableEq, Repr

/-- States of the daemon reachable from its start, sessions running
concurrently with the supervisor.
* `init`: the limits are set and `num_clients` is 0.
* `startup`: the loop of lines 177-184 visits the next services; of the
  sessions it asks for, some are started (`create_client` may fail).
* `handed`: after the start-up, a call of `accept_connection` runs up to the
  return of `create_client` (line 233); with a return value of 0 a session is
  live and its `num_clients++` is pending.
* `counted`: the pending `num_clients++` of lines 238-240.
* `completed`: a live session ends, at any moment. -/
inductive Reachable (b : Build) (h : HostLimits) (services : List Service) : Sys → Prop
  | init : Reachable b h services ⟨daemon_init b h, 0, false, services⟩
  | startup (s : Sys) (part rest : List Service) (started : Nat)
      (hs : Reachable b h services s) (ht : s.todo = part ++ rest)
      (hl : started ≤ connect_only part) :
      Reachable b h services
        ⟨(spawn_connect_only s.g part).1, s.live + started, s.pending, rest⟩
  | handed (s : Sys) (l rc : Int) (rs : List AcceptResult) (g1 : Globals)
      (tr : List Event) (hs : Reachable b h services s) (ht : s.todo = [])
      (hp : s.pending = false)
      (ha : accept_connection b s.g l rc rs = some (g1, tr)) :
      Reachable b h services
        ⟨s.g, s.live + (if worker_started rc tr then 1 else 0), worker_started rc tr, []⟩
  | counted (s : Sys) (hs : Reachable b h services s) (hp : s.pending = true) :
      Reachable b h services
        ⟨{ s.g with num_clients := s.g.num_clients + 1 }, s.live, false, s.todo⟩
  | completed (s : Sys) (hs : Reachable b h services s) (hl : 0 < s.live) :
      Reachable b h services ⟨session_completed s.g, s.live - 1, s.pending, s.todo⟩

/-- One accepting service, listening on descriptor 5. -/
def oneAccepting : List Service := [{ accept := true, fd := 5 }]

/-- The state in which one accepted connection has been handed over and
counted, under a descriptor limit of 1024. -/
def countedOnce : Sys :=
  { g := { max_fds := 1024, max_clients := 500, num_clients := 1 }, live := 1,
    pending := false, todo := [] }

/-- Globals with room for three more clients: 16 descriptors, a limit of five
clients, two clients counted. -/
def twoOfFive : Globals := { max_fds := 16, max_clients := 5, num_clients := 2 }

/-- Six services that only connect. -/
def sixConnectOnly : List Service :=
  List.replicate 6 { accept := false, fd := -1 }

/-! ## Global options, `create_pid` and `drop_privileges` -/

/-- The fields of the global `options` that `stunnel.c` uses after start-up. -/
structure Options where
  /-- `options.pidfile` (`none` for a null pointer) -/
  pidfile : Option String
  /-- `options.dpid`, the recorded PID of the daemon -/
  dpid : Nat
  /-- `options.chroot_dir` -/
  chroot_dir : Option String
  /-- `options.setgid_group` -/
  setgid_group : Option String
  /-- `options.setuid_user` -/
  setuid_user : Option String
  /-- `options.option.foreground` -/
  foreground : Bool
  deriving DecidableEq, Repr

/-- How a function that may call `exit` ends. -/
inductive Outcome
  | returned
  | exited (code : Nat)
  deriving DecidableEq, Repr

/-- The test `options.pidfile[0]=='/'` of `create_pid`. -/
def starts_with_slash (path : String) : Bool :=
  path.toList.head? == some '/'

/-- The function `create_pid`.  `pid` is the value of `getpid()` and `pf` the
value `open` returns (`-1` on failure). -/
def create_pid (o : Options) (pid : Nat) (pf : Int) : Options × Outcome × List Event :=
  match o.pidfile with
  | none =>
      (o, Outcome.returned, [Event.s_log Level.LOG_DEBUG "No pid file being created"])
  | some path =>
      if !starts_with_slash path then
        (o, Outcome.exited 1,
          [Event.s_log Level.LOG_ERR "Pid file (%s) must be full path name",
           Event.exit 1])
      else
        let o1 := { o with dpid := pid }
        let t := [Event.getpid, Event.unlink path, Event.open_excl path]
        if pf = -1 then
          (o1, Outcome.exited 1,
            t ++ [Event.s_log Level.LOG_ERR "Cannot create pid file %s",
                  Event.ioerror "create", Event.exit 1])
        else
          (o1, Outcome.returned,
            t ++ [Event.write pf (toString pid ++ "\n"), Event.close pf,
                  Event.s_log Level.LOG_DEBUG "Created pid file %s",
                  Event.atexit_delete_pid])

/-- Whether a trace holds a call that unlinks, opens, writes or closes a file. -/
def touches_files (tr : List Event) : Bool :=
  tr.any fun e => match e with
    | Event.unlink _ => true
    | Event.open_excl _ => true
    | Event.write _ _ => true
    | Event.close _ => true
    | _ => false

/-- The C library predicate `isspace` in the "C" locale. -/
def isspace (c : Char) : Bool :=
  c.toNat = 32 || (9 ≤ c.toNat && c.toNat ≤ 13)

/-- Value of the longest prefix of decimal digits, read after `acc`. -/
def digits_value (acc : Nat) : List Char → Nat
  | [] => acc
  | c :: cs =>
      if c.isDigit then digits_value (acc * 10 + (c.toNat - 48)) cs else acc

/-- The largest value of a C `long` (64 bits). -/
def LONG_MAX : Int := 9223372036854775807

/-- The smallest value of a C `long` (64 bits). -/
def LONG_MIN : Int := -9223372036854775808

/-- The result of `strtol` for a number of value `x`: values outside the range
of `long` are replaced by `LONG_MAX` or `LONG_MIN`. -/
def saturate_long (x : Int) : Int :=
  if x > LONG_MAX then LONG_MAX else if x < LONG_MIN then LONG_MIN else x

/-- The C library function `atoi` as the GNU C library defines it on a system
with a 64-bit `long`, `(int) strtol(s, NULL, 10)`: white space is skipped, an
optional sign and the decimal digits that follow are read, the rest is
ignored; the value saturates at the bounds of `long` and is then converted to
`int`.  A string without a leading number gives 0.  (ISO C leaves the result
undefined when the value does not fit an `int`.) -/
def atoi (s : String) : Int :=
  match s.toList.dropWhile isspace with
  | '-' :: ds => toInt32 (saturate_long (-(digits_value 0 ds : Int)))
  | '+' :: ds => toInt32 (saturate_long (digits_value 0 ds))
  | ds => toInt32 (saturate_long (digits_value 0 ds))

/-- What the host answers to `drop_privileges`: the group and user databases
(the id found, as the C `int` the code stores it in) and the return values of
the privileged calls. -/
structure PrivHost where
  getgrnam : String → Option Int
  getpwnam : String → Option Int
  chroot_rc : Int
  chdir_rc : Int
  setgid_rc : Int
  setgroups_rc : Int
  setuid_rc : Int

/-- Lines 298-307 (group) and 310-319 (user) of `drop_privileges`: the id for
a configured name; `none` stands for the branch that logs and calls `exit(1)`. -/
def resolve_id (lookup : String → Option Int) (name : String) : Option Int :=
  match lookup name with
  | some id => some id
  | none => if atoi name ≠ 0 then some (atoi name) else none

/-- Lines 322-334 of `drop_privileges`: `chroot` and `chdir("/")`.  The flag
tells whether the step went through; a failed call is followed by its
`sockerror`. -/
def chroot_step (b : Build) (o : Options) (host : PrivHost) : Bool × List Event :=
  if b.HAVE_CHROOT then
    match o.chroot_dir with
    | none => (true, [])
    | some dir =>
        if host.chroot_rc ≠ 0 then
          (false, [Event.chroot dir, Event.sockerror "chroot"])
        else if host.chdir_rc ≠ 0 then
          (false, [Event.chroot dir, Event.chdir "/", Event.sockerror "chdir"])
        else (true, [Event.chroot dir, Event.chdir "/"])
  else (true, [])

/-- Lines 337-349 of `drop_privileges`: `if(gid) { setgid; setgroups }`. -/
def setgid_step (b : Build) (host : PrivHost) (gid : Int) : Bool × List Event :=
  if gid ≠ 0 then
    if host.setgid_rc ≠ 0 then
      (false, [Event.setgid gid, Event.sockerror "setgid"])
    else if b.HAVE_SETGROUPS then
      if host.setgroups_rc ≠ 0 then
        (false, [Event.setgid gid, Event.setgroups [gid], Event.sockerror "setgroups"])
      else (true, [Event.setgid gid, Event.setgroups [gid]])
    else (true, [Event.setgid gid])
  else (true, [])

/-- Lines 350-355 of `drop_privileges`: `if(uid) setuid`. -/
def setuid_step (host : PrivHost) (uid : Int) : Bool × List Event :=
  if uid ≠ 0 then
    if host.setuid_rc ≠ 0 then
      (false, [Event.setuid uid, Event.sockerror "setuid"])
    else (true, [Event.setuid uid])
  else (true, [])

/-- Lines 322-355 of `drop_privileges`: the privileged calls for the resolved
`gid` and `uid`; the first step that fails ends in `exit(1)`. -/
def drop_privileges_calls (b : Build) (o : Options) (host : PrivHost)
    (gid uid : Int) : Outcome × List Event :=
  let c := chroot_step b o host
  if !c.1 then (Outcome.exited 1, c.2 ++ [Event.exit 1])
  else
    let g := setgid_step b host gid
    if !g.1 then (Outcome.exited 1, c.2 ++ g.2 ++ [Event.exit 1])
    else
      let u := setuid_step host uid
      if !u.1 then (Outcome.exited 1, c.2 ++ g.2 ++ u.2 ++ [Event.exit 1])
      else (Outcome.returned, c.2 ++ g.2 ++ u.2)

/-- Lines 289 and 297-308 of `drop_privileges`: the variable `gid`, which starts
as 0 and is resolved when a group is configured. -/
def resolve_gid (o : Options) (host : PrivHost) : Option Int :=
  match o.setgid_group with
  | none => some 0
  | some name => resolve_id host.getgrnam name

/-- Lines 289 and 309-320 of `drop_privileges`: the variable `uid`. -/
def resolve_uid (o : Options) (host : PrivHost) : Option Int :=
  match o.setuid_user with
  | none => some 0
  | some name => resolve_id host.getpwnam name

/-- The function `drop_privileges`. -/
def drop_privileges (b : Build) (o : Options) (host : PrivHost) : Outcome × List Event :=
  match resolve_gid o host with
  | none =>
      (Outcome.exited 1,
        [Event.s_log Level.LOG_ERR "Failed to get GID for group %s", Event.exit 1])
  | some gid =>
      match resolve_uid o host with
      | none =>
          (Outcome.exited 1,
            [Event.s_log Level.LOG_ERR "Failed to get UID for user %s", Event.exit 1])
      | some uid => drop_privileges_calls b o host gid uid

/-- Value of a decimal digit character. -/
def digit_of (c : Char) : Nat := c.toNat - 48

/-- Options with nothing configured. -/
def noOptions : Options :=
  { pidfile := none, dpid := 0, chroot_dir := none, setgid_group := none,
    setuid_user := none, foreground := false }

/-- A host with the group `root` (0), the group and user `nobody` (65534) and
the user `root` (0), on which every privileged call succeeds. -/
def plainHost : PrivHost :=
  { getgrnam := fun n => if n = "root" then some 0 else if n = "nobody" then some 65534 else none,
    getpwnam := fun n => if n = "root" then some 0 else if n = "nobody" then some 65534 else none,
    chroot_rc := 0, chdir_rc := 0, setgid_rc := 0, setgroups_rc := 0, setuid_rc := 0 }

/-! ## Signals, `exit` and `delete_pid` -/

/-- Signal number `SIGHUP` of the system headers. -/
def SIGHUP : Int := 1

/-- Signal number `SIGINT` of the system headers. -/
def SIGINT : Int := 2

/-- Signal number `SIGQUIT` of the system headers. -/
def SIGQUIT : Int := 3

/-- Signal number `SIGTERM` of the system headers. -/
def SIGTERM : Int := 15

/-- Lines 66-69 of `main`: the signals `signal_handler` is installed for. -/
def handled_signals : List Int := [SIGTERM, SIGQUIT, SIGINT, SIGHUP]

/-- The text `s_log` writes for the format "Received signal %d; terminating"
and the argument `sig`. -/
def received_signal_text (sig : Int) : String :=
  "Received signal " ++ toString sig ++ "; terminating"

/-- Whether `atexit(delete_pid)` was called in a trace. -/
def atexit_registered (tr : List Event) : Bool :=
  tr.any fun e => match e with
    | Event.atexit_delete_pid => true
    | _ => false

/-- The function `delete_pid`.  `pid` is the value of `getpid()` in the
process that runs it and `unlink_rc` the value `unlink` returns.  The handler
is registered only behind the test for a configured path; the empty path
stands for a null `options.pidfile`. -/
def delete_pid (o : Options) (pid : Nat) (unlink_rc : Int) : List Event :=
  let path := o.pidfile.getD ""
  [Event.s_log Level.LOG_DEBUG "removing pid file %s", Event.getpid] ++
    (if pid ≠ o.dpid then []
     else Event.unlink path :: (if unlink_rc < 0 then [Event.ioerror path] else []))

/-- The C library function `exit` as `stunnel.c` relies on it: the handler
registered with `atexit` (if `registered`) runs, then the process ends with
the given code. -/
def exit_process (o : Options) (registered : Bool) (pid : Nat) (unlink_rc : Int)
    (code : Nat) : Outcome × List Event :=
  (Outcome.exited code,
    Event.exit code :: (if registered then delete_pid o pid unlink_rc else []))

/-- The function `signal_handler`, run in a process whose `getpid()` is `pid`. -/
def signal_handler (o : Options) (registered : Bool) (pid : Nat) (unlink_rc : Int)
    (sig : Int) : Outcome × List Event :=
  let r := exit_process o registered pid unlink_rc 3
  (r.1,
    Event.s_log (if sig = SIGTERM then Level.LOG_NOTICE else Level.LOG_ERR)
      (received_signal_text sig) :: r.2)

/-- Delivery of the signal `sig` to the process: `signal_handler` runs for the
signals `main` installed it for (lines 66-69); for every other signal no code
of the program runs (`none`). -/
def deliver_signal (o : Options) (registered : Bool) (pid : Nat) (unlink_rc : Int)
    (sig : Int) : Option (Outcome × List Event) :=
  if sig ∈ handled_signals then some (signal_handler o registered pid unlink_rc sig)
  else none

/-- Options with the PID file `/var/run/stunnel.pid`. -/
def pidOptions : Options :=
  { pidfile := some "/var/run/stunnel.pid", dpid := 0, chroot_dir := none,
    setgid_group := none, setuid_user := none, foreground := false }

/-! ## `daemonize` and `daemon_loop` up to the first wait -/

/-- Preprocessor switches of `daemonize`. -/
structure DaemonBuild where
  /-- `defined(HAVE_DAEMON) && !defined(__BEOS__)` -/
  HAVE_DAEMON : Bool
  /-- `HAVE_SETSID` -/
  HAVE_SETSID : Bool
  deriving DecidableEq, Repr

/-- What `fork()` returns: -1, 0 in the child, the child's PID in the parent. -/
inductive ForkResult
  | failed
  | child
  | parent
  deriving DecidableEq, Repr

/-- What the host answers during the start-up of `daemon_loop`.  The value
`socket` returns for a service is the field `fd` of that service. -/
structure LoopHost where
  /-- answers to the probe of `get_limits` -/
  limits : HostLimits
  /-- return value of `set_socket_options(fd, 0)` -/
  set_socket_options_rc : Int → Int
  /-- return value of `bind` on the descriptor -/
  bind_rc : Int → Int
  /-- return value of `listen` on the descriptor -/
  listen_rc : Int → Int
  /-- return value of `daemon(0,0)` -/
  daemon_rc : Int
  /-- result of `fork()` in `daemonize` -/
  fork_result : ForkResult
  /-- answers to `drop_privileges` -/
  priv : PrivHost
  /-- value of `getpid()` in `create_pid` -/
  pid : Nat
  /-- value `open` returns in `create_pid` -/
  pf : Int

/-- Calls made by `daemon_loop`: those of the functions embedded above
(`host`) and the ones only `daemon_loop` and `daemonize` make. -/
inductive Call
  | host (e : Event)
  | get_limits
  | signal_pipe_init
  | socket (fd : Int)
  | set_socket_options (fd : Int)
  | bind (fd : Int)
  | listen (fd : Int)
  | s_poll_add (fd : Int)
  | daemon
  | fork
  | setsid
  | s_poll_wait
  deriving DecidableEq, Repr

/-- Where the start-up of `daemon_loop` ends: in the first `s_poll_wait` of the
`while(1)` loop, with the globals and options of that moment, or in `exit`. -/
inductive LoopState
  | waiting (g : Globals) (o : Options)
  | exited (code : Nat)
  deriving DecidableEq, Repr

/-- The function `daemonize`. -/
def daemonize (db : DaemonBuild) (host : LoopHost) : Outcome × List Call :=
  let tail : List Call := if db.HAVE_SETSID then [Call.setsid] else []
  if db.HAVE_DAEMON then
    if host.daemon_rc = -1 then
      (Outcome.exited 1,
        [Call.daemon, Call.host (Event.ioerror "daemon"), Call.host (Event.exit 1)])
    else (Outcome.returned, Call.daemon :: tail)
  else
    match host.fork_result with
    | ForkResult.failed =>
        (Outcome.exited 1,
          [Call.host (Event.chdir "/"), Call.fork, Call.host (Event.ioerror "fork"),
           Call.host (Event.exit 1)])
    | ForkResult.parent =>
        (Outcome.exited 0,
          [Call.host (Event.chdir "/"), Call.fork, Call.host (Event.exit 0)])
    | ForkResult.child =>
        (Outcome.returned,
          [Call.host (Event.chdir "/"), Call.fork, Call.host (Event.close 0),
           Call.host (Event.close 1), Call.host (Event.close 2)] ++ tail)

/-- Lines 142-166 of `daemon_loop`: the body of the bind loop for one accepting
service.  The flag tells whether the service is bound and listening; when it
is not, the body has called `exit(1)`. -/
def bind_service (b : Build) (g : Globals) (host : LoopHost) (opt : Service) :
    Bool × List Call :=
  let t1 := [Call.socket opt.fd]
  if opt.fd < 0 then
    (false, t1 ++ [Call.host (Event.sockerror "local socket"), Call.host (Event.exit 1)])
  else
    let a := alloc_fd g opt.fd
    let t2 := t1 ++ a.2.map Call.host
    if a.1 ≠ 0 then (false, t2 ++ [Call.host (Event.exit 1)])
    else
      let t3 := t2 ++ [Call.set_socket_options opt.fd]
      if host.set_socket_options_rc opt.fd < 0 then
        (false, t3 ++ [Call.host (Event.exit 1)])
      else
        let t4 := t3 ++ [Call.bind opt.fd]
        if host.bind_rc opt.fd ≠ 0 then
          (false, t4 ++ [Call.host (Event.s_log Level.LOG_ERR "Error binding %s to %s"),
                         Call.host (Event.sockerror "bind"), Call.host (Event.exit 1)])
        else
          let t5 := t4 ++ [Call.host (Event.s_log Level.LOG_DEBUG "%s bound to %s"),
                           Call.listen opt.fd]
          if host.listen_rc opt.fd ≠ 0 then
            (false, t5 ++ [Call.host (Event.sockerror "listen"), Call.host (Event.exit 1)])
          else
            (true, t5 ++ (if b.FD_CLOEXEC then [Call.host (Event.fcntl_cloexec opt.fd)] else [])
                      ++ [Call.s_poll_add opt.fd])

/-- Lines 139-167 of `daemon_loop`: the bind loop over the services. -/
def bind_services (b : Build) (g : Globals) (host : LoopHost) :
    List Service → Bool × List Call
  | [] => (true, [])
  | opt :: rest =>
      if !opt.accept then bind_services b g host rest
      else
        let r := bind_service b g host opt
        if !r.1 then (false, r.2)
        else
          let r2 := bind_services b g host rest
          (r2.1, r.2 ++ r2.2)

/-- The function `daemon_loop` from its entry to the first `s_poll_wait`
(line 187), or to the `exit` that ends the start-up. -/
def daemon_loop (b : Build) (db : DaemonBuild) (o : Options) (services : List Service)
    (host : LoopHost) : LoopState × List Call :=
  -- get_limits(); s_poll_zero(&fds); s_poll_add(&fds, signal_pipe_init(), 1, 0);
  let lim := get_limits b host.limits
  let t0 := [Call.get_limits, Call.signal_pipe_init]
  if services = [] then
    (LoopState.exited 1,
      t0 ++ [Call.host (Event.s_log Level.LOG_ERR "No connections defined in config file"),
             Call.host (Event.exit 1)])
  else
    -- num_clients=0;
    let g : Globals := { max_fds := lim.max_fds, max_clients := lim.max_clients,
                         num_clients := 0 }
    let bs := bind_services b g host services
    if !bs.1 then (LoopState.exited 1, t0 ++ bs.2)
    else
      -- if(!(options.option.foreground)) daemonize();
      let dz := if o.foreground then (Outcome.returned, []) else daemonize db host
      match dz.1 with
      | Outcome.exited c => (LoopState.exited c, t0 ++ bs.2 ++ dz.2)
      | Outcome.returned =>
          let dp := drop_privileges b o host.priv
          match dp.1 with
          | Outcome.exited c =>
              (LoopState.exited c, t0 ++ bs.2 ++ dz.2 ++ dp.2.map Call.host)
          | Outcome.returned =>
              let cp := create_pid o host.pid host.pf
              match cp.2.1 with
              | Outcome.exited c =>
                  (LoopState.exited c,
                    t0 ++ bs.2 ++ dz.2 ++ dp.2.map Call.host ++ cp.2.2.map Call.host)
              | Outcome.returned =>
                  let sp := spawn_connect_only g services
                  (LoopState.waiting sp.1 cp.1,
                    t0 ++ bs.2 ++ dz.2 ++ dp.2.map Call.host ++ cp.2.2.map Call.host ++
                      sp.2.map Call.host ++ [Call.s_poll_wait])

/-- Whether a call is one of `socket`, `bind`, `listen`. -/
def is_bind_call : Call → Bool
  | Call.socket _ => true
  | Call.bind _ => true
  | Call.listen _ => true
  | _ => false

/-- Whether a call belongs to `daemonize`: `daemon`, `fork` or `setsid`. -/
def is_daemonize_call : Call → Bool
  | Call.daemon => true
  | Call.fork => true
  | Call.setsid => true
  | _ => false

/-- Whether a call drops a privilege: `chroot`, `setgid`, `setgroups`, `setuid`. -/
def is_privilege_call : Call → Bool
  | Call.host (Event.chroot _) => true
  | Call.host (Event.setgid _) => true
  | Call.host (Event.setgroups _) => true
  | Call.host (Event.setuid _) => true
  | _ => false

/-- The calls `socket`, `bind`, `listen` of one bound service, in this order. -/
def bind_calls_of (opt : Service) : List Call :=
  [Call.socket opt.fd, Call.bind opt.fd, Call.listen opt.fd]

/-- A build of `daemonize` with `daemon()` and `setsid()`. -/
def linuxDaemonBuild : DaemonBuild := { HAVE_DAEMON := true, HAVE_SETSID := true }

/-- A host on which every call of the start-up succeeds, with a descriptor
limit of 1024. -/
def plainLoopHost : LoopHost :=
  { limits := hostWithLimit 1024, set_socket_options_rc := fun _ => 0,
    bind_rc := fun _ => 0, listen_rc := fun _ => 0, daemon_rc := 0,
    fork_result := ForkResult.child, priv := plainHost, pid := 4711, pf := 6 }

/-- One accepting service on descriptor 5 and one connect-only service. -/
def twoServices : List Service :=
  [{ accept := true, fd := 5 }, { accept := false, fd := -1 }]

/-- Options with chroot, setuid and a PID file. -/
def jailOptions : Options :=
  { pidfile := some "/stunnel.pid", dpid := 0, chroot_dir := some "/jail",
    setgid_group := some "nobody", setuid_user := some "nobody", foreground := false }

/-! ## Facts about `get_limits` -/

theorem toInt32_of_range (x : Int) (h1 : -2147483648 ≤ x) (h2 : x < 2147483648) :
    toInt32 x = x := by
  unfold toInt32; omega

theorem clamp_min16_range (m : Int) : clamp_min16 m = 0 ∨ 16 ≤ clamp_min16 m := by
  unfold clamp_min16
  split_ifs with h <;> omega

/-- Where `max_fds * 125` fits a C `int`, the code and the specification's
formula agree. -/
theorem derive_max_clients_eq_spec (m : Int) (h0 : m = 0 ∨ 16 ≤ m)
    (h1 : m ≤ 17179869) : derive_max_clients m = max_clients_spec m := by
  unfold derive_max_clients max_clients_spec
  rcases h0 with h0 | h0
  · simp [h0]
  · have hne : m ≠ 0 := by omega
    simp only [hne, ne_eq, not_false_eq_true, if_true, if_false]
    split_ifs with h
    · have e1 : mulInt32 m 125 = m * 125 := by
        unfold mulInt32; exact toInt32_of_range _ (by omega) (by omega)
      rw [e1]
      unfold divInt32
      rw [Int.tdiv_eq_ediv (by omega) (by omega)]
      exact toInt32_of_range _ (by omega) (by omega)
    · have e1 : subInt32 m 6 = m - 6 := by
        unfold subInt32; exact toInt32_of_range _ (by omega) (by omega)
      rw [e1]
      unfold divInt32
      rw [Int.tdiv_eq_ediv (by omega) (by omega)]
      exact toInt32_of_range _ (by omega) (by omega)

/-- Up to a final `max_fds` of 17179869 `get_limits` sets `max_clients` to the
value of the specification's formula. -/
theorem get_limits_max_clients_eq_spec (b : Build) (h : HostLimits)
    (hm : (get_limits b h).max_fds ≤ 17179869) :
    (get_limits b h).max_clients = max_clients_spec (get_limits b h).max_fds := by
  unfold get_limits at hm ⊢
  exact derive_max_clients_eq_spec _ (clamp_min16_range _) hm

/-- C1, at the failing input.  With a descriptor limit of 20000000 `get_limits`
keeps `max_fds = 20000000`; the product `max_fds*125` leaves the range of `int`
and `max_clients` becomes -7011591, while `max_fds*125/256` is 9765625. -/
theorem get_limits_max_clients_overflow :
    (get_limits linuxBuild (hostWithLimit 20000000)).max_fds = 20000000 ∧
    (get_limits linuxBuild (hostWithLimit 20000000)).max_clients = -7011591 ∧
    max_clients_spec 20000000 = 9765625 := by
  decide

/-- C2.  Whatever the build and whatever the probe returns (a positive limit,
zero, or a negative failure value), `get_limits` leaves `max_fds` equal to 0 or
at least 16. -/
theorem get_limits_max_fds_range (b : Build) (h : HostLimits) :
    (get_limits b h).max_fds = 0 ∨ 16 ≤ (get_limits b h).max_fds := by
  unfold get_limits
  exact clamp_min16_range _

/-! ## Facts about `accept_connection` -/

theorem accept_connection_eintr (b : Build) (g : Globals) (l rc : Int) (k : Nat)
    (rs : List AcceptResult) :
    accept_connection b g l rc (eintr k ++ rs) =
      (accept_connection b g l rc rs).map
        (fun r => (r.1, List.replicate k (Event.accept l) ++ r.2)) := by
  induction k with
  | zero => simp [eintr]
  | succ n ih =>
      have e : eintr (n + 1) ++ rs = AcceptResult.error Errno.EINTR :: (eintr n ++ rs) := by
        simp [eintr, List.replicate_succ]
      rw [e, accept_connection, ih]
      cases accept_connection b g l rc rs <;> simp [List.replicate_succ]

/-- C3.  With a limit in force (`max_clients > 0`) and `num_clients` at or above
it, a call whose `accept` succeeds (after any number of `EINTR` retries) closes
the accepted socket once, does not call `create_client`, and returns with the
globals, `num_clients` included, unchanged. -/
theorem accept_connection_full_rejects (b : Build) (g : Globals) (l rc : Int)
    (k s : Nat) (rest : List AcceptResult)
    (h1 : 0 < g.max_clients) (h2 : g.max_clients ≤ g.num_clients) :
    ∃ tr, accept_connection b g l rc (eintr k ++ AcceptResult.fd s :: rest) = some (g, tr) ∧
      tr.count (Event.closesocket s) = 1 ∧
      calls_create_client tr = false := by
  have hc : g.max_clients ≠ 0 ∧ g.num_clients ≥ g.max_clients := ⟨by omega, h2⟩
  refine ⟨List.replicate k (Event.accept l) ++ (Event.accept l ::
    [Event.s_log Level.LOG_DEBUG "%s accepted FD=%d from %s",
     Event.s_log Level.LOG_WARNING "Connection rejected: too many clients (>=%d)",
     Event.closesocket s]), ?_, ?_, ?_⟩
  · rw [accept_connection_eintr]
    simp [accept_connection, accept_connection_accepted, hc]
  · simp [List.count_append, List.count_replicate, List.count_cons]
  · simp [calls_create_client, List.any_append, List.any_replicate]

theorem accept_connection_full_rejects_witness :
    ∃ tr, accept_connection linuxBuild ⟨16, 5, 5⟩ 3 0
        (eintr 1 ++ AcceptResult.fd 7 :: []) = some (⟨16, 5, 5⟩, tr) ∧
      tr.count (Event.closesocket (7 : Nat)) = 1 ∧
      calls_create_client tr = false :=
  accept_connection_full_rejects linuxBuild ⟨16, 5, 5⟩ 3 0 1 7 [] (by decide) (by decide)

/-- C5, at the failing input.  With `max_fds = 0`, `alloc_fd` rejects the
descriptor 7: it closes the socket and returns -1, and `accept_connection`
returns without calling `create_client`. -/
theorem alloc_fd_rejects_when_unlimited :
    alloc_fd ⟨0, 0, 0⟩ 7 =
      (-1, [Event.s_log Level.LOG_ERR "File descriptor out of range (%d>=%d)",
            Event.closesocket 7]) ∧
    accept_connection linuxBuild ⟨0, 0, 0⟩ 3 0 [AcceptResult.fd 7] =
      some (⟨0, 0, 0⟩,
        [Event.accept 3,
         Event.s_log Level.LOG_DEBUG "%s accepted FD=%d from %s",
         Event.s_log Level.LOG_ERR "File descriptor out of range (%d>=%d)",
         Event.closesocket 7]) := by
  constructor
  · simp [alloc_fd]
  · simp [accept_connection, accept_connection_accepted, alloc_fd]

/-- C6.  Every call whose `accept` succeeds with the descriptor `s` returns, and
its trace calls `create_client` at most once and only with the listener and
`s`.  On admission rejection and on a descriptor out of range (`max_fds` is 0
or `s >= max_fds`) `s` is closed exactly once and `create_client` is not
called; when `create_client(listener, s)` fails `s` is closed exactly once;
when it returns 0 the worker has `s` and `s` is not closed.  So `s` is closed
exactly once unless it was handed over, and then it is not closed. -/
theorem accept_connection_hands_over_or_closes (b : Build) (g : Globals)
    (l rc : Int) (k s : Nat) (rest : List AcceptResult) :
    ∃ g1 tr, accept_connection b g l rc (eintr k ++ AcceptResult.fd s :: rest) = some (g1, tr) ∧
      (∀ ls s1, Event.create_client ls s1 ∈ tr → ls = l ∧ s1 = (s : Int)) ∧
      tr.count (Event.create_client l s) ≤ 1 ∧
      tr.count (Event.closesocket s) =
        (if rc = 0 ∧ Event.create_client l s ∈ tr then 0 else 1) ∧
      ((g.max_clients ≠ 0 ∧ g.num_clients ≥ g.max_clients) →
        tr.count (Event.closesocket s) = 1 ∧ Event.create_client l s ∉ tr) ∧
      (¬ (g.max_clients ≠ 0 ∧ g.num_clients ≥ g.max_clients) →
        (g.max_fds = 0 ∨ (s : Int) ≥ g.max_fds) →
        tr.count (Event.closesocket s) = 1 ∧ Event.create_client l s ∉ tr) ∧
      (¬ (g.max_clients ≠ 0 ∧ g.num_clients ≥ g.max_clients) →
        ¬ (g.max_fds = 0 ∨ (s : Int) ≥ g.max_fds) → rc ≠ 0 →
        tr.count (Event.closesocket s) = 1 ∧ tr.count (Event.create_client l s) = 1) ∧
      (¬ (g.max_clients ≠ 0 ∧ g.num_clients ≥ g.max_clients) →
        ¬ (g.max_fds = 0 ∨ (s : Int) ≥ g.max_fds) → rc = 0 →
        tr.count (Event.closesocket s) = 0 ∧ tr.count (Event.create_client l s) = 1) := by
  rw [accept_connection_eintr]
  simp only [accept_connection, Option.map_some']
  refine ⟨_, _, rfl, ?_⟩
  unfold accept_connection_accepted alloc_fd
  by_cases hc : g.max_clients ≠ 0 ∧ g.num_clients ≥ g.max_clients
  · simp [hc, List.count_append, List.count_replicate, List.count_cons,
      List.mem_replicate]
  · by_cases ha : g.max_fds = 0 ∨ (s : Int) ≥ g.max_fds
    · simp [hc, ha, List.count_append, List.count_replicate, List.count_cons,
        List.mem_replicate]
    · by_cases hr : rc = 0
      · cases hb : b.FD_CLOEXEC <;>
          simp [hc, ha, hr, hb, List.count_append, List.count_replicate, List.count_cons,
            List.mem_replicate]
      · cases hb : b.FD_CLOEXEC <;>
          simp [hc, ha, hr, hb, List.count_append, List.count_replicate, List.count_cons,
            List.mem_replicate]

theorem accept_connection_hands_over_or_closes_witness :
    ∃ g1 tr,
      accept_connection linuxBuild twoOfFive 3 0
        (eintr 1 ++ AcceptResult.fd (7 : Nat) :: []) = some (g1, tr) ∧
      (∀ ls s1, Event.create_client ls s1 ∈ tr → ls = (3 : Int) ∧ s1 = ((7 : Nat) : Int)) ∧
      tr.count (Event.create_client 3 (7 : Nat)) ≤ 1 ∧
      tr.count (Event.closesocket (7 : Nat)) =
        (if (0 : Int) = 0 ∧ Event.create_client 3 (7 : Nat) ∈ tr then 0 else 1) ∧
      ((twoOfFive.max_clients ≠ 0 ∧
          twoOfFive.num_clients ≥ twoOfFive.max_clients) →
        tr.count (Event.closesocket (7 : Nat)) = 1 ∧ Event.create_client 3 (7 : Nat) ∉ tr) ∧
      (¬ (twoOfFive.max_clients ≠ 0 ∧
          twoOfFive.num_clients ≥ twoOfFive.max_clients) →
        (twoOfFive.max_fds = 0 ∨ ((7 : Nat) : Int) ≥ twoOfFive.max_fds) →
        tr.count (Event.closesocket (7 : Nat)) = 1 ∧ Event.create_client 3 (7 : Nat) ∉ tr) ∧
      (¬ (twoOfFive.max_clients ≠ 0 ∧
          twoOfFive.num_clients ≥ twoOfFive.max_clients) →
        ¬ (twoOfFive.max_fds = 0 ∨ ((7 : Nat) : Int) ≥ twoOfFive.max_fds) →
        (0 : Int) ≠ 0 →
        tr.count (Event.closesocket (7 : Nat)) = 1 ∧ tr.count (Event.create_client 3 (7 : Nat)) = 1) ∧
      (¬ (twoOfFive.max_clients ≠ 0 ∧
          twoOfFive.num_clients ≥ twoOfFive.max_clients) →
        ¬ (twoOfFive.max_fds = 0 ∨ ((7 : Nat) : Int) ≥ twoOfFive.max_fds) →
        (0 : Int) = 0 →
        tr.count (Event.closesocket (7 : Nat)) = 0 ∧ tr.count (Event.create_client 3 (7 : Nat)) = 1) :=
  accept_connection_hands_over_or_closes linuxBuild twoOfFive 3 0 1 7 []

/-- C7.  While `accept` fails with `EINTR` the call retries and does not return.
When the first other failure is `EMFILE`, `ENFILE`, `ENOBUFS` or `ENOMEM` it
sleeps one second, logs the error and returns; on any other failure it logs
and returns without sleeping.  In both cases the globals (`num_clients`
included) are unchanged and neither `exit` nor `create_client` is called. -/
theorem accept_connection_failures (b : Build) (g : Globals) (l rc : Int)
    (k : Nat) (e : Errno) (rest : List AcceptResult) (he : e ≠ Errno.EINTR) :
    accept_connection b g l rc (eintr k) = none ∧
    ∃ tr, accept_connection b g l rc (eintr k ++ AcceptResult.error e :: rest) = some (g, tr) ∧
      tr = List.replicate (k + 1) (Event.accept l) ++
            (if out_of_resources e then [Event.sleep 1] else []) ++
            [Event.sockerror "accept"] ∧
      calls_exit tr = false ∧ calls_create_client tr = false := by
  constructor
  · have h := accept_connection_eintr b g l rc k []
    simpa [accept_connection] using h
  · refine ⟨_, ?_, rfl, ?_, ?_⟩
    · rw [accept_connection_eintr]
      have hs : ∀ (x : Event) (t : List Event),
          List.replicate (k + 1) x ++ t = List.replicate k x ++ x :: t := by
        intro x t
        rw [List.replicate_succ', List.append_assoc, List.singleton_append]
      cases e <;> simp_all [accept_connection, out_of_resources]
    · cases h : out_of_resources e <;>
        simp [calls_exit, List.any_append, List.any_replicate]
    · cases h : out_of_resources e <;>
        simp [calls_create_client, List.any_append, List.any_replicate]

theorem accept_connection_failures_witness :
    accept_connection linuxBuild ⟨16, 5, 2⟩ 3 0 (eintr 2) = none ∧
    ∃ tr, accept_connection linuxBuild ⟨16, 5, 2⟩ 3 0
        (eintr 2 ++ AcceptResult.error Errno.EMFILE :: []) = some (⟨16, 5, 2⟩, tr) ∧
      tr = List.replicate (2 + 1) (Event.accept 3) ++
            (if out_of_resources Errno.EMFILE then [Event.sleep 1] else []) ++
            [Event.sockerror "accept"] ∧
      calls_exit tr = false ∧ calls_create_client tr = false :=
  accept_connection_failures linuxBuild ⟨16, 5, 2⟩ 3 0 2 Errno.EMFILE [] (by decide)

/-! ## Facts about the client counter -/

theorem spawn_connect_only_globals (sv : List Service) (g : Globals) :
    (spawn_connect_only g sv).1 =
      { g with num_clients := g.num_clients + connect_only sv } := by
  induction sv generalizing g with
  | nil => simp [spawn_connect_only, connect_only]
  | cons opt rest ih =>
      unfold spawn_connect_only
      cases ho : opt.accept
      · simp only [Bool.false_eq_true, if_false]
        rw [ih]
        have : connect_only (opt :: rest) = connect_only rest + 1 := by
          simp [connect_only, List.filter_cons, ho]
        rw [this]
        simp only [Globals.mk.injEq, true_and]
        push_cast
        ring
      · simp only [if_true]
        rw [ih]
        have : connect_only (opt :: rest) = connect_only rest := by
          simp [connect_only, List.filter_cons, ho]
        rw [this]

theorem worker_started_cons_accept (rc l : Int) (tr : List Event) :
    worker_started rc (Event.accept l :: tr) = worker_started rc tr := by
  simp [worker_started, calls_create_client]

/-- Effect of one returning call of `accept_connection` on the globals. -/
theorem accept_connection_step (b : Build) (g : Globals) (l rc : Int)
    (rs : List AcceptResult) (g1 : Globals) (tr : List Event)
    (ha : accept_connection b g l rc rs = some (g1, tr)) :
    g1.max_fds = g.max_fds ∧ g1.max_clients = g.max_clients ∧
    ((worker_started rc tr = false ∧ g1.num_clients = g.num_clients) ∨
     (worker_started rc tr = true ∧ g1.num_clients = g.num_clients + 1 ∧
      ¬ (g.max_clients ≠ 0 ∧ g.num_clients ≥ g.max_clients))) := by
  induction rs generalizing g1 tr with
  | nil => simp [accept_connection] at ha
  | cons r rest ih =>
      cases r with
      | fd s =>
          simp only [accept_connection, Option.some.injEq, Prod.mk.injEq] at ha
          obtain ⟨hg, ht⟩ := ha
          subst hg ht
          rw [worker_started_cons_accept]
          unfold accept_connection_accepted alloc_fd worker_started calls_create_client
          by_cases hc : g.max_clients ≠ 0 ∧ g.num_clients ≥ g.max_clients
          · simp [hc]
          · by_cases hf : g.max_fds = 0 ∨ (s : Int) ≥ g.max_fds
            · simp [hc, hf]
            · by_cases hr : rc = 0
              · cases hb : b.FD_CLOEXEC <;> simp [hc, hf, hr, hb]
              · cases hb : b.FD_CLOEXEC <;> simp [hc, hf, hr, hb]
      | error e =>
          cases e with
          | EINTR =>
              simp only [accept_connection, Option.map_eq_some', Prod.mk.injEq] at ha
              obtain ⟨r, hr, hg, ht⟩ := ha
              subst hg ht
              rw [worker_started_cons_accept]
              exact ih r.1 r.2 hr
          | _ =>
              simp [accept_connection] at ha
              obtain ⟨hg, ht⟩ := ha
              subst hg ht
              simp [worker_started, calls_create_client]

theorem connect_only_append (l1 l2 : List Service) :
    connect_only (l1 ++ l2) = connect_only l1 + connect_only l2 := by
  simp [connect_only, List.filter_append]

/-- A call of `accept_connection` that returns leaves the globals as the steps
`handed` and `counted` together do: `num_clients` is one higher exactly when a
worker was started, and nothing else changes. -/
theorem accept_connection_split (b : Build) (g : Globals) (l rc : Int)
    (rs : List AcceptResult) (g1 : Globals) (tr : List Event)
    (ha : accept_connection b g l rc rs = some (g1, tr)) :
    g1 = (if worker_started rc tr then { g with num_clients := g.num_clients + 1 } else g) := by
  obtain ⟨h1, h2, h3⟩ := accept_connection_step b g l rc rs g1 tr ha
  obtain ⟨f1, f2, f3⟩ := g1
  obtain ⟨e1, e2, e3⟩ := g
  simp only at h1 h2 h3
  rcases h3 with ⟨hw, hn⟩ | ⟨hw, hn, _⟩
  · simp [hw, h1, h2, hn]
  · simp [hw, h1, h2, hn]

/-- The invariant behind the bounds on `num_clients`: every live session is
counted or has its count pending, and, whenever `max_clients > 0`, the counter
with the pending count and the connect-only services still to visit stays
below the larger of `max_clients` and the number of connect-only services. -/
theorem reachable_invariant (b : Build) (h : HostLimits) (services : List Service)
    (s : Sys) (hs : Reachable b h services s) :
    (s.live : Int) ≤ s.g.num_clients + (if s.pending then 1 else 0) ∧
    (0 < s.g.max_clients →
      s.g.num_clients + (if s.pending then 1 else 0) + connect_only s.todo ≤
        max s.g.max_clients (connect_only services)) := by
  induction hs with
  | init =>
      simp only [daemon_init]
      constructor
      · simp
      · intro _
        simp
  | startup s part rest started _ ht hl ih =>
      obtain ⟨ih1, ih2⟩ := ih
      rw [ht, connect_only_append] at ih2
      simp only [spawn_connect_only_globals]
      constructor
      · push_cast
        have : (started : Int) ≤ connect_only part := by exact_mod_cast hl
        omega
      · intro hpos
        have := ih2 hpos
        push_cast at this
        omega
  | handed s l rc rs g1 tr _ ht hp ha ih =>
      obtain ⟨_, _, hstep⟩ := accept_connection_step b s.g l rc rs g1 tr ha
      obtain ⟨ih1, ih2⟩ := ih
      simp only [hp, Bool.false_eq_true, if_false, add_zero, ht] at ih1 ih2
      simp only
      rcases hstep with ⟨hw, _⟩ | ⟨hw, _, hadm⟩
      · simp only [hw, Bool.false_eq_true, if_false, add_zero]
        exact ⟨by exact_mod_cast ih1, ih2⟩
      · simp only [hw, if_true]
        refine ⟨by push_cast; omega, ?_⟩
        intro hpos
        have hlt : s.g.num_clients < s.g.max_clients := by
          by_contra hge
          exact hadm ⟨by omega, by omega⟩
        have : s.g.num_clients + 1 ≤ max s.g.max_clients (connect_only services) :=
          le_max_of_le_left (by omega)
        simpa [connect_only] using this
  | counted s _ hp ih =>
      obtain ⟨ih1, ih2⟩ := ih
      simp only [hp, if_true] at ih1 ih2
      simp only [Bool.false_eq_true, if_false, add_zero]
      exact ⟨ih1, ih2⟩
  | completed s _ hl ih =>
      obtain ⟨ih1, ih2⟩ := ih
      simp only [session_completed]
      refine ⟨by omega, ?_⟩
      intro hpos
      have := ih2 hpos
      omega

/-- C4 as stated fails, in both bounds.  With a descriptor limit of 16
(`max_clients = 5`) and six connect-only services the start-up loop leaves
`num_clients = 6`: a reachable state with `max_clients > 0` and
`num_clients > max_clients`.  And when the first accepted connection is
handed to `create_client` and its session ends before `accept_connection`
reaches `num_clients++`, the counter is `-1`. -/
theorem num_clients_leaves_bounds :
    (∃ s : Sys, Reachable linuxBuild (hostWithLimit 16) sixConnectOnly s ∧
      0 < s.g.max_clients ∧ s.g.max_clients < s.g.num_clients) ∧
    (∃ s : Sys, Reachable linuxBuild (hostWithLimit 1024) oneAccepting s ∧
      0 < s.g.max_clients ∧ s.g.num_clients = -1) := by
  constructor
  · have h0 : Reachable linuxBuild (hostWithLimit 16) sixConnectOnly _ := Reachable.init
    have h1 := Reachable.startup _ sixConnectOnly [] 6 h0 (by simp) (by decide)
    exact ⟨_, h1, by decide, by decide⟩
  · have h0 : Reachable linuxBuild (hostWithLimit 1024) oneAccepting _ := Reachable.init
    have h1 := Reachable.startup _ oneAccepting [] 0 h0 (by simp) (by decide)
    have h2 := Reachable.handed _ 5 0 [AcceptResult.fd 7] _ _ h1 rfl rfl rfl
    have h3 := Reachable.completed _ h2 (by decide)
    exact ⟨_, h3, by decide, by decide⟩

/-- C4, amended.  In every state reachable from daemon start, `0 <= num_clients`
holds whenever no accepted connection stands between its hand-over to
`create_client` and its `num_clients++`, and whenever `max_clients > 0` the
counter is at most the larger of `max_clients` and the number of connect-only
services of the configuration. -/
theorem num_clients_bounds (b : Build) (h : HostLimits) (services : List Service)
    (s : Sys) (hs : Reachable b h services s) :
    (s.pending = false → 0 ≤ s.g.num_clients) ∧
    (0 < s.g.max_clients →
      s.g.num_clients ≤ max s.g.max_clients (connect_only services)) := by
  obtain ⟨h1, h2⟩ := reachable_invariant b h services s hs
  constructor
  · intro hp
    simp only [hp, Bool.false_eq_true, if_false, add_zero] at h1
    omega
  · intro hpos
    have := h2 hpos
    split_ifs at this <;> omega

theorem num_clients_bounds_witness :
    (countedOnce.pending = false → 0 ≤ countedOnce.g.num_clients) ∧
    (0 < countedOnce.g.max_clients →
      countedOnce.g.num_clients ≤ max countedOnce.g.max_clients (connect_only oneAccepting)) := by
  have h0 : Reachable linuxBuild (hostWithLimit 1024) oneAccepting _ := Reachable.init
  have h1 := Reachable.startup _ oneAccepting [] 0 h0 (by simp) (by decide)
  have h2 := Reachable.handed _ 5 0 [AcceptResult.fd 7] _ _ h1 rfl rfl rfl
  have h3 := Reachable.counted _ h2 (by decide)
  have h4 : Reachable linuxBuild (hostWithLimit 1024) oneAccepting countedOnce := by
    convert h3 using 1
  exact num_clients_bounds linuxBuild (hostWithLimit 1024) oneAccepting countedOnce h4

/-! ## Facts about `create_pid` -/

/-- C8.  Without a configured PID file `create_pid` returns after a debug log
only.  For a path that does not begin with `/` it logs, calls `exit(1)` and
does not unlink, open, write or close any file.  Whenever it touches a file,
the configured path begins with `/`. -/
theorem create_pid_relative_path (o : Options) (pid : Nat) (pf : Int) :
    (o.pidfile = none →
      create_pid o pid pf =
        (o, Outcome.returned, [Event.s_log Level.LOG_DEBUG "No pid file being created"])) ∧
    (∀ path, o.pidfile = some path → path.toList.head? ≠ some '/' →
      create_pid o pid pf =
        (o, Outcome.exited 1,
          [Event.s_log Level.LOG_ERR "Pid file (%s) must be full path name",
           Event.exit 1]) ∧
      touches_files (create_pid o pid pf).2.2 = false) ∧
    (touches_files (create_pid o pid pf).2.2 = true →
      ∃ path, o.pidfile = some path ∧ path.toList.head? = some '/') := by
  refine ⟨?_, ?_, ?_⟩
  · intro h
    simp [create_pid, h]
  · intro path h hp
    have hs : starts_with_slash path = false := by
      simpa [starts_with_slash] using hp
    simp [create_pid, h, hs, touches_files]
  · intro ht
    cases hpf : o.pidfile with
    | none => simp [create_pid, hpf, touches_files] at ht
    | some path =>
        refine ⟨path, rfl, ?_⟩
        by_contra hp
        have hs : starts_with_slash path = false := by
          simpa [starts_with_slash] using hp
        simp [create_pid, hpf, hs, touches_files] at ht

theorem create_pid_relative_path_witness :
    create_pid { noOptions with pidfile := some "stunnel.pid" } 4711 5 =
      ({ noOptions with pidfile := some "stunnel.pid" }, Outcome.exited 1,
        [Event.s_log Level.LOG_ERR "Pid file (%s) must be full path name",
         Event.exit 1]) ∧
    touches_files (create_pid { noOptions with pidfile := some "stunnel.pid" } 4711 5).2.2
      = false :=
  (create_pid_relative_path { noOptions with pidfile := some "stunnel.pid" } 4711 5).2.1
    "stunnel.pid" rfl (by decide)

/-! ## Facts about `drop_privileges` -/

theorem chroot_step_ok (b : Build) (o : Options) (host : PrivHost)
    (h : (chroot_step b o host).1 = true) :
    (chroot_step b o host).2 =
      (match o.chroot_dir with
        | some dir => if b.HAVE_CHROOT then [Event.chroot dir, Event.chdir "/"] else []
        | none => []) := by
  unfold chroot_step at h ⊢
  cases hd : o.chroot_dir <;> cases hc : b.HAVE_CHROOT <;>
    by_cases h3 : host.chroot_rc = 0 <;> by_cases h4 : host.chdir_rc = 0 <;>
    simp_all

theorem setgid_step_ok (b : Build) (host : PrivHost) (gid : Int)
    (h : (setgid_step b host gid).1 = true) :
    (setgid_step b host gid).2 =
      (if gid ≠ 0 then
        Event.setgid gid :: (if b.HAVE_SETGROUPS then [Event.setgroups [gid]] else [])
       else []) := by
  unfold setgid_step at h ⊢
  cases hs : b.HAVE_SETGROUPS <;> by_cases h1 : gid = 0 <;>
    by_cases h5 : host.setgid_rc = 0 <;> by_cases h6 : host.setgroups_rc = 0 <;>
    simp_all

theorem setuid_step_ok (host : PrivHost) (uid : Int)
    (h : (setuid_step host uid).1 = true) :
    (setuid_step host uid).2 = (if uid ≠ 0 then [Event.setuid uid] else []) := by
  unfold setuid_step at h ⊢
  by_cases h2 : uid = 0 <;> by_cases h7 : host.setuid_rc = 0 <;> simp_all

/-- C9 as stated fails.  With the group `root` (gid 0) configured and nothing
else, `drop_privileges` succeeds without calling `setgid` or `setgroups`. -/
theorem drop_privileges_skips_gid_zero :
    drop_privileges linuxBuild { noOptions with setgid_group := some "root" } plainHost =
      (Outcome.returned, []) := by
  simp [drop_privileges, resolve_gid, resolve_uid, resolve_id, drop_privileges_calls,
    chroot_step, setgid_step, setuid_step, noOptions, plainHost, linuxBuild]

/-- C9, amended.  When `drop_privileges` succeeds, group and user were resolved
to `gid` and `uid` (0 when not configured) and the calls it issued are, in
this order: `chroot(dir)`, `chdir("/")` iff a chroot directory is configured
(on a build with `chroot`); `setgid(gid)`, then `setgroups([gid])` where the
build has it, iff `gid` is not 0; `setuid(uid)` iff `uid` is not 0. -/
theorem drop_privileges_call_order (b : Build) (o : Options) (host : PrivHost)
    (tr : List Event) (h : drop_privileges b o host = (Outcome.returned, tr)) :
    ∃ gid uid, resolve_gid o host = some gid ∧ resolve_uid o host = some uid ∧
      tr =
        (match o.chroot_dir with
          | some dir => if b.HAVE_CHROOT then [Event.chroot dir, Event.chdir "/"] else []
          | none => []) ++
        (if gid ≠ 0 then
          Event.setgid gid :: (if b.HAVE_SETGROUPS then [Event.setgroups [gid]] else [])
         else []) ++
        (if uid ≠ 0 then [Event.setuid uid] else []) := by
  unfold drop_privileges at h
  cases hg : resolve_gid o host with
  | none => simp [hg] at h
  | some gid =>
      cases hu : resolve_uid o host with
      | none => simp [hg, hu] at h
      | some uid =>
          refine ⟨gid, uid, rfl, rfl, ?_⟩
          simp only [hg, hu] at h
          unfold drop_privileges_calls at h
          cases hc : (chroot_step b o host).1 with
          | false => simp [hc] at h
          | true =>
              cases hs : (setgid_step b host gid).1 with
              | false => simp [hc, hs] at h
              | true =>
                  cases hx : (setuid_step host uid).1 with
                  | false => simp [hc, hs, hx] at h
                  | true =>
                      simp only [hc, hs, hx, Bool.not_true, Bool.false_eq_true, if_false,
                        Prod.mk.injEq, true_and] at h
                      rw [← h, chroot_step_ok b o host hc, setgid_step_ok b host gid hs,
                        setuid_step_ok host uid hx]

theorem drop_privileges_call_order_witness :
    ∃ gid uid,
      resolve_gid { noOptions with chroot_dir := some "/jail", setgid_group := some "nobody",
                                   setuid_user := some "nobody" } plainHost = some gid ∧
      resolve_uid { noOptions with chroot_dir := some "/jail", setgid_group := some "nobody",
                                   setuid_user := some "nobody" } plainHost = some uid ∧
      [Event.chroot "/jail", Event.chdir "/", Event.setgid 65534, Event.setgroups [65534],
        Event.setuid 65534] =
        (match (some "/jail" : Option String) with
          | some dir => if linuxBuild.HAVE_CHROOT then [Event.chroot dir, Event.chdir "/"] else []
          | none => []) ++
        (if gid ≠ 0 then
          Event.setgid gid :: (if linuxBuild.HAVE_SETGROUPS then [Event.setgroups [gid]] else [])
         else []) ++
        (if uid ≠ 0 then [Event.setuid uid] else []) :=
  drop_privileges_call_order linuxBuild
    { noOptions with chroot_dir := some "/jail", setgid_group := some "nobody",
                     setuid_user := some "nobody" } plainHost
    [Event.chroot "/jail", Event.chdir "/", Event.setgid 65534, Event.setgroups [65534],
      Event.setuid 65534]
    (by simp [drop_privileges, resolve_gid, resolve_uid, resolve_id, drop_privileges_calls,
          chroot_step, setgid_step, setuid_step, noOptions, plainHost, linuxBuild])

/-! ## Facts about the resolution of names -/

theorem digits_value_eq (ds : List Char) (hd : ∀ c ∈ ds, c.isDigit = true) (acc : Nat) :
    digits_value acc ds =
      acc * 10 ^ ds.length + Nat.ofDigits 10 (ds.reverse.map digit_of) := by
  induction ds generalizing acc with
  | nil => simp [digits_value]
  | cons c cs ih =>
      have hc : c.isDigit = true := hd c (List.mem_cons_self _ _)
      have hcs : ∀ x ∈ cs, x.isDigit = true := fun x hx => hd x (List.mem_cons_of_mem _ hx)
      simp only [digits_value, hc, if_true]
      rw [ih hcs]
      simp only [List.reverse_cons, List.map_append, List.map_cons, List.map_nil,
        Nat.ofDigits_append, List.length_map, List.length_reverse, List.length_cons,
        Nat.ofDigits_singleton, digit_of]
      ring

theorem atoi_digits (ds : List Char) (hd : ∀ c ∈ ds, c.isDigit = true) :
    atoi (String.mk ds) =
      toInt32 (saturate_long ((Nat.ofDigits 10 (ds.reverse.map digit_of) : Nat) : Int)) := by
  have hv := digits_value_eq ds hd 0
  simp only [zero_mul, zero_add] at hv
  unfold atoi
  cases ds with
  | nil => simp [digits_value, Nat.ofDigits]
  | cons c cs =>
      have hc : c.isDigit = true := hd c (List.mem_cons_self _ _)
      have hb : 48 ≤ c.toNat ∧ c.toNat ≤ 57 := by
        simpa [Char.isDigit, Char.toNat, UInt32.le_def] using hc
      have hsp : isspace c = false := by
        simp only [isspace, Bool.or_eq_false_iff, Bool.and_eq_false_iff, decide_eq_false_iff_not]
        omega
      have hdrop : (String.mk (c :: cs)).toList.dropWhile isspace = c :: cs := by
        simp [List.dropWhile_cons, hsp]
      rw [hdrop]
      split
      · rename_i heq
        simp only [List.cons.injEq] at heq
        rw [heq.1] at hb
        simp at hb
      · rename_i heq
        simp only [List.cons.injEq] at heq
        rw [heq.1] at hb
        simp at hb
      · rw [hv]

/-- Beyond the range of `long` the model of `atoi` saturates before the
conversion to `int`, as `(int) strtol(s, NULL, 10)` does. -/
theorem atoi_saturates :
    atoi "99999999999999999999" = -1 ∧ atoi "-99999999999999999999" = 0 := by
  decide

/-- C10, at the failing input.  The decimal id "0" is not a name of the database
and `atoi` gives 0 for it, so the resolution in `drop_privileges` logs and
ends in `exit(1)` instead of yielding the id 0; and "12abc", which is neither
a known name nor a decimal id, resolves to 12 instead of being fatal. -/
theorem resolve_id_zero_is_fatal :
    plainHost.getpwnam "0" = none ∧
    resolve_id plainHost.getpwnam "0" = none ∧
    drop_privileges linuxBuild { noOptions with setuid_user := some "0" } plainHost =
      (Outcome.exited 1,
        [Event.s_log Level.LOG_ERR "Failed to get UID for user %s", Event.exit 1]) ∧
    plainHost.getpwnam "12abc" = none ∧
    resolve_id plainHost.getpwnam "12abc" = some 12 := by
  have h0 : atoi "0" = 0 := by decide
  have h12 : atoi "12abc" = 12 := by decide
  have l0 : plainHost.getpwnam "0" = none := by decide
  have l12 : plainHost.getpwnam "12abc" = none := by decide
  refine ⟨l0, ?_, ?_, l12, ?_⟩
  · simp [resolve_id, l0, h0]
  · simp [drop_privileges, resolve_gid, resolve_uid, resolve_id, noOptions, l0, h0]
  · simp [resolve_id, l12, h12]

/-! ## Facts about the size of `max_clients` -/

/-- Where `max_fds * 125` fits a C `int` (a final `max_fds` from 16 up to
17179869), the derived `max_clients` is at least 1 and two descriptors for
each client plus a reserve of six fit in `max_fds`. -/
theorem derive_max_clients_fits (m : Int) (h0 : 16 ≤ m) (h1 : m ≤ 17179869) :
    1 ≤ derive_max_clients m ∧ 2 * derive_max_clients m + 6 ≤ m := by
  rw [derive_max_clients_eq_spec m (Or.inr h0) h1]
  unfold max_clients_spec
  have hne : m ≠ 0 := by omega
  simp only [hne, if_false]
  split_ifs with h <;> omega

/-- C13, at the failing input.  For `max_fds = 20000000`, a value between 16 and
`2^31-1`, the derivation in 32-bit `int` arithmetic gives
`max_clients = -7011591`, which is not at least 1; for `max_fds = 34359738`
it gives 0, the value that stands for "no limit". -/
theorem derive_max_clients_not_positive :
    (16 : Int) ≤ 20000000 ∧ (20000000 : Int) ≤ 2147483647 ∧
    derive_max_clients 20000000 = -7011591 ∧
    ¬ (1 ≤ derive_max_clients 20000000) ∧
    derive_max_clients 34359738 = 0 := by
  decide

/-! ## Facts about `signal_handler` -/

/-- C11.  In a process that has written the PID file (`create_pid` returned with
a configured path), a delivered SIGTERM, SIGQUIT, SIGINT or SIGHUP makes
`signal_handler` log the text "Received signal n; terminating" with the
decimal signal number n (15, 3, 2 and 1 for the four signals), at notice
severity iff the signal is SIGTERM and at error severity otherwise, and end
the process with exit code 3; the `delete_pid` run at exit calls `unlink` on
the PID file iff the current PID equals the recorded one, which is the PID of
the process that wrote the file. -/
theorem signal_handler_exits_and_unlinks (o o1 : Options) (pid cur : Nat)
    (pf unlink_rc sig : Int) (path : String) (tr : List Event)
    (hp : o.pidfile = some path)
    (hc : create_pid o pid pf = (o1, Outcome.returned, tr))
    (hs : sig = SIGTERM ∨ sig = SIGQUIT ∨ sig = SIGINT ∨ sig = SIGHUP) :
    o1.dpid = pid ∧
    ∃ lvl txt rest,
      deliver_signal o1 (atexit_registered tr) cur unlink_rc sig =
        some (Outcome.exited 3, Event.s_log lvl txt :: Event.exit 3 :: rest) ∧
      txt = "Received signal " ++ toString sig ++ "; terminating" ∧
      (sig = SIGTERM → txt = "Received signal 15; terminating") ∧
      (sig = SIGQUIT → txt = "Received signal 3; terminating") ∧
      (sig = SIGINT → txt = "Received signal 2; terminating") ∧
      (sig = SIGHUP → txt = "Received signal 1; terminating") ∧
      (lvl = Level.LOG_NOTICE ↔ sig = SIGTERM) ∧
      (lvl = Level.LOG_ERR ↔ sig ≠ SIGTERM) ∧
      (Event.unlink path ∈ rest ↔ cur = o1.dpid) := by
  have hfacts : o1.dpid = pid ∧ o1.pidfile = some path ∧ atexit_registered tr = true := by
    unfold create_pid at hc
    simp only [hp] at hc
    by_cases hsl : starts_with_slash path = true
    · by_cases hpf : pf = -1
      · simp [hsl, hpf] at hc
      · simp only [hsl, hpf, Bool.not_true, Bool.false_eq_true, if_false, Prod.mk.injEq,
          true_and] at hc
        obtain ⟨ho, ht⟩ := hc
        subst ho ht
        simp [atexit_registered, hp]
    · simp [hsl] at hc
  obtain ⟨hd, hpath, hreg⟩ := hfacts
  have hmem : sig ∈ handled_signals := by
    simp only [handled_signals, List.mem_cons, List.mem_singleton]
    tauto
  refine ⟨hd, if sig = SIGTERM then Level.LOG_NOTICE else Level.LOG_ERR,
    received_signal_text sig, delete_pid o1 cur unlink_rc, ?_, rfl, ?_, ?_, ?_, ?_, ?_, ?_, ?_⟩
  · simp [deliver_signal, hmem, signal_handler, exit_process, hreg]
  · intro h; subst h; decide
  · intro h; subst h; decide
  · intro h; subst h; decide
  · intro h; subst h; decide
  · by_cases h : sig = SIGTERM <;> simp [h]
  · by_cases h : sig = SIGTERM <;> simp [h]
  · by_cases h : cur = o1.dpid <;> by_cases hu : unlink_rc < 0 <;>
      simp [delete_pid, hpath, h, hu]

theorem signal_handler_exits_and_unlinks_witness :
    (create_pid pidOptions 4711 5).1.dpid = 4711 ∧
    ∃ lvl txt rest,
      deliver_signal (create_pid pidOptions 4711 5).1
          (atexit_registered (create_pid pidOptions 4711 5).2.2) 4711 0 SIGTERM =
        some (Outcome.exited 3, Event.s_log lvl txt :: Event.exit 3 :: rest) ∧
      txt = "Received signal " ++ toString SIGTERM ++ "; terminating" ∧
      (SIGTERM = SIGTERM → txt = "Received signal 15; terminating") ∧
      (SIGTERM = SIGQUIT → txt = "Received signal 3; terminating") ∧
      (SIGTERM = SIGINT → txt = "Received signal 2; terminating") ∧
      (SIGTERM = SIGHUP → txt = "Received signal 1; terminating") ∧
      (lvl = Level.LOG_NOTICE ↔ SIGTERM = SIGTERM) ∧
      (lvl = Level.LOG_ERR ↔ SIGTERM ≠ SIGTERM) ∧
      (Event.unlink "/var/run/stunnel.pid" ∈ rest ↔
        4711 = (create_pid pidOptions 4711 5).1.dpid) :=
  signal_handler_exits_and_unlinks pidOptions (create_pid pidOptions 4711 5).1 4711 4711
    5 0 SIGTERM "/var/run/stunnel.pid" (create_pid pidOptions 4711 5).2.2
    rfl (by decide) (Or.inl rfl)

/-! ## Facts about the start-up of `daemon_loop` -/

theorem bind_service_ok (b : Build) (g : Globals) (host : LoopHost) (opt : Service)
    (h : (bind_service b g host opt).1 = true) :
    (bind_service b g host opt).2.filter is_bind_call = bind_calls_of opt ∧
    (bind_service b g host opt).2.all
      (fun c => !is_daemonize_call c && !is_privilege_call c) = true := by
  unfold bind_service alloc_fd at h ⊢
  by_cases h1 : opt.fd < 0
  · simp [h1] at h
  · by_cases h2 : g.max_fds = 0 ∨ opt.fd ≥ g.max_fds
    · simp [h1, h2] at h
    · by_cases h3 : host.set_socket_options_rc opt.fd < 0
      · simp [h1, h2, h3] at h
      · by_cases h4 : host.bind_rc opt.fd = 0
        · by_cases h5 : host.listen_rc opt.fd = 0
          · cases hb : b.FD_CLOEXEC <;>
              simp [h1, h2, h3, h4, h5, hb, is_bind_call, is_daemonize_call,
                is_privilege_call, bind_calls_of, List.filter_cons]
          · simp [h1, h2, h3, h4, h5] at h
        · simp [h1, h2, h3, h4] at h

theorem bind_services_ok (b : Build) (g : Globals) (host : LoopHost)
    (services : List Service) (h : (bind_services b g host services).1 = true) :
    (bind_services b g host services).2.filter is_bind_call =
      (services.filter fun opt => opt.accept).flatMap bind_calls_of ∧
    (bind_services b g host services).2.all
      (fun c => !is_daemonize_call c && !is_privilege_call c) = true := by
  induction services with
  | nil => simp [bind_services]
  | cons opt rest ih =>
      unfold bind_services at h ⊢
      cases ha : opt.accept
      · simp only [ha, Bool.not_false, if_true] at h ⊢
        have := ih h
        simpa [List.filter_cons, ha] using this
      · simp only [ha, Bool.not_true, Bool.false_eq_true, if_false] at h ⊢
        cases hs : (bind_service b g host opt).1
        · simp [hs] at h
        · simp only [hs, Bool.not_true, Bool.false_eq_true, if_false] at h ⊢
          obtain ⟨i1, i2⟩ := ih h
          obtain ⟨s1, s2⟩ := bind_service_ok b g host opt hs
          constructor
          · rw [List.filter_append, s1, i1]
            simp [List.filter_cons, ha, List.flatMap_cons]
          · rw [List.all_append, s2, i2]
            rfl

theorem spawn_connect_only_trace (sv : List Service) (g : Globals) :
    (spawn_connect_only g sv).2 =
      List.replicate (connect_only sv) (Event.create_client (-1) (-1)) := by
  induction sv generalizing g with
  | nil => simp [spawn_connect_only, connect_only]
  | cons opt rest ih =>
      unfold spawn_connect_only
      cases ho : opt.accept
      · simp only [Bool.false_eq_true, if_false]
        rw [ih]
        simp [connect_only, List.filter_cons, ho, List.replicate_succ]
      · simp only [if_true]
        rw [ih]
        simp [connect_only, List.filter_cons, ho]

theorem daemonize_calls (db : DaemonBuild) (host : LoopHost) :
    (daemonize db host).2.all
      (fun c => !is_bind_call c && !is_privilege_call c) = true := by
  unfold daemonize
  cases db.HAVE_DAEMON <;> cases db.HAVE_SETSID <;> cases host.fork_result <;>
    by_cases h : host.daemon_rc = -1 <;>
    simp [h, is_bind_call, is_privilege_call]

theorem host_calls_not_bind (tr : List Event) :
    (tr.map Call.host).all (fun c => !is_bind_call c) = true := by
  simp [List.all_map, List.all_eq_true, is_bind_call]

/-- A start-up that ends in the first wait went through every stage. -/
theorem daemon_loop_waiting (b : Build) (db : DaemonBuild) (o : Options)
    (services : List Service) (host : LoopHost) (g1 : Globals) (o1 : Options)
    (h : (daemon_loop b db o services host).1 = LoopState.waiting g1 o1) :
    ∃ binds ptr ctr,
      bind_services b
        { max_fds := (get_limits b host.limits).max_fds,
          max_clients := (get_limits b host.limits).max_clients, num_clients := 0 }
        host services = (true, binds) ∧
      (o.foreground = false → (daemonize db host).1 = Outcome.returned) ∧
      drop_privileges b o host.priv = (Outcome.returned, ptr) ∧
      create_pid o host.pid host.pf = (o1, Outcome.returned, ctr) ∧
      (daemon_loop b db o services host).2 =
        [Call.get_limits, Call.signal_pipe_init] ++ binds ++
          (if o.foreground then [] else (daemonize db host).2) ++
          ptr.map Call.host ++ ctr.map Call.host ++
          List.replicate (connect_only services)
            (Call.host (Event.create_client (-1) (-1))) ++
          [Call.s_poll_wait] := by
  unfold daemon_loop at h ⊢
  by_cases hsv : services = []
  · simp [hsv] at h
  · simp only [hsv, if_false] at h ⊢
    cases hbs : (bind_services b
        { max_fds := (get_limits b host.limits).max_fds,
          max_clients := (get_limits b host.limits).max_clients, num_clients := 0 }
        host services).1
    · simp [hbs] at h
    · simp only [hbs, Bool.not_true, Bool.false_eq_true, if_false] at h ⊢
      cases hdz : (if o.foreground then (Outcome.returned, ([] : List Call))
          else daemonize db host).1 with
      | exited c => simp [hdz] at h
      | returned =>
          simp only [hdz] at h ⊢
          cases hdp : (drop_privileges b o host.priv).1 with
          | exited c => simp [hdp] at h
          | returned =>
              simp only [hdp] at h ⊢
              cases hcp : (create_pid o host.pid host.pf).2.1 with
              | exited c => simp [hcp] at h
              | returned =>
                  simp only [hcp, LoopState.waiting.injEq] at h ⊢
                  refine ⟨(bind_services b
                      { max_fds := (get_limits b host.limits).max_fds,
                        max_clients := (get_limits b host.limits).max_clients,
                        num_clients := 0 } host services).2,
                    (drop_privileges b o host.priv).2,
                    (create_pid o host.pid host.pf).2.2, ?_, ?_, ?_, ?_, ?_⟩
                  · exact Prod.ext hbs rfl
                  · intro hf
                    simpa [hf] using hdz
                  · exact Prod.ext hdp rfl
                  · exact Prod.ext h.2 (Prod.ext hcp rfl)
                  · rw [spawn_connect_only_trace]
                    cases hf : o.foreground <;> simp

theorem daemonize_returned_calls (db : DaemonBuild) (host : LoopHost)
    (h : (daemonize db host).1 = Outcome.returned) :
    (daemonize db host).2.any is_daemonize_call = true := by
  unfold daemonize at h ⊢
  cases hd : db.HAVE_DAEMON <;> cases hs : db.HAVE_SETSID <;>
    cases hf : host.fork_result <;> by_cases hr : host.daemon_rc = -1 <;>
    simp_all [is_daemonize_call]

/-- C12.  A start-up of `daemon_loop` that reaches the first `s_poll_wait` made
its calls in this order: `get_limits` (and the signal pipe), then for every
accepting service, in configuration order, `socket`, `bind`, `listen`, then
the calls of `daemonize` (none in foreground mode), then those of a successful
`drop_privileges`, then those of a successful `create_pid`, then one
`create_client(-1, -1, ...)` per connect-only service, then the wait.  No
`socket`, `bind` or `listen` comes from daemonization on, and no call of
`daemonize` and no privilege drop comes before the end of the bind phase. -/
theorem daemon_loop_phase_order (b : Build) (db : DaemonBuild) (o : Options)
    (services : List Service) (host : LoopHost) (g1 : Globals) (o1 : Options)
    (h : (daemon_loop b db o services host).1 = LoopState.waiting g1 o1) :
    ∃ binds dz ptr ctr,
      (daemon_loop b db o services host).2 =
        ([Call.get_limits, Call.signal_pipe_init] ++ binds) ++
          (dz ++ ptr.map Call.host ++ ctr.map Call.host ++
            List.replicate (connect_only services)
              (Call.host (Event.create_client (-1) (-1))) ++
            [Call.s_poll_wait]) ∧
      binds.filter is_bind_call =
        (services.filter fun opt => opt.accept).flatMap bind_calls_of ∧
      dz = (if o.foreground then [] else (daemonize db host).2) ∧
      (o.foreground = false → dz.any is_daemonize_call = true) ∧
      drop_privileges b o host.priv = (Outcome.returned, ptr) ∧
      create_pid o host.pid host.pf = (o1, Outcome.returned, ctr) ∧
      (dz ++ ptr.map Call.host ++ ctr.map Call.host ++
          List.replicate (connect_only services)
            (Call.host (Event.create_client (-1) (-1))) ++
          [Call.s_poll_wait]).all (fun c => !is_bind_call c) = true ∧
      ([Call.get_limits, Call.signal_pipe_init] ++ binds).all
          (fun c => !is_daemonize_call c && !is_privilege_call c) = true ∧
      dz.all (fun c => !is_privilege_call c) = true := by
  obtain ⟨binds, ptr, ctr, hb, hdz, hdp, hcp, htr⟩ :=
    daemon_loop_waiting b db o services host g1 o1 h
  have hbs := bind_services_ok b _ host services (by rw [hb])
  rw [hb] at hbs
  refine ⟨binds, if o.foreground then [] else (daemonize db host).2, ptr, ctr,
    ?_, hbs.1, rfl, ?_, hdp, hcp, ?_, ?_, ?_⟩
  · rw [htr]
    simp only [List.append_assoc]
  · intro hf
    simp only [hf, Bool.false_eq_true, if_false]
    exact daemonize_returned_calls db host (hdz hf)
  · have hd := daemonize_calls db host
    simp only [List.all_append, Bool.and_eq_true]
    refine ⟨⟨⟨⟨?_, host_calls_not_bind ptr⟩, host_calls_not_bind ctr⟩, ?_⟩, ?_⟩
    · cases hf : o.foreground
      · simp only [Bool.false_eq_true, if_false]
        simp only [List.all_eq_true, Bool.and_eq_true] at hd ⊢
        exact fun c hc => (hd c hc).1
      · simp
    · simp [is_bind_call]
    · simp [is_bind_call]
  · rw [List.all_append, hbs.2]
    simp [is_daemonize_call, is_privilege_call]
  · have hd := daemonize_calls db host
    cases hf : o.foreground
    · simp only [Bool.false_eq_true, if_false]
      simp only [List.all_eq_true, Bool.and_eq_true] at hd ⊢
      exact fun c hc => (hd c hc).2
    · simp

theorem daemon_loop_phase_order_witness :
    ∃ binds dz ptr ctr,
      (daemon_loop linuxBuild linuxDaemonBuild jailOptions twoServices plainLoopHost).2 =
        ([Call.get_limits, Call.signal_pipe_init] ++ binds) ++
          (dz ++ ptr.map Call.host ++ ctr.map Call.host ++
            List.replicate (connect_only twoServices)
              (Call.host (Event.create_client (-1) (-1))) ++
            [Call.s_poll_wait]) ∧
      binds.filter is_bind_call =
        (twoServices.filter fun opt => opt.accept).flatMap bind_calls_of ∧
      dz = (if jailOptions.foreground then []
            else (daemonize linuxDaemonBuild plainLoopHost).2) ∧
      (jailOptions.foreground = false → dz.any is_daemonize_call = true) ∧
      drop_privileges linuxBuild jailOptions plainLoopHost.priv = (Outcome.returned, ptr) ∧
      create_pid jailOptions plainLoopHost.pid plainLoopHost.pf =
        ({ jailOptions with dpid := 4711 }, Outcome.returned, ctr) ∧
      (dz ++ ptr.map Call.host ++ ctr.map Call.host ++
          List.replicate (connect_only twoServices)
            (Call.host (Event.create_client (-1) (-1))) ++
          [Call.s_poll_wait]).all (fun c => !is_bind_call c) = true ∧
      ([Call.get_limits, Call.signal_pipe_init] ++ binds).all
          (fun c => !is_daemonize_call c && !is_privilege_call c) = true ∧
      dz.all (fun c => !is_privilege_call c) = true :=
  daemon_loop_phase_order linuxBuild linuxDaemonBuild jailOptions twoServices plainLoopHost
    { max_fds := 1024, max_clients := 500, num_clients := 1 }
    { jailOptions with dpid := 4711 } (by decide)

end Stunnel
